import Mathlib

/-!
Shallow embedding of `custom_components/pagerduty_notify/notify.py`
(Home Assistant notify entity delivering to the PagerDuty Events API v2).

The module has one class, `PagerDutyNotifyEntity`, with
  - `__init__(name, routing_key, default_source, default_severity)` storing
    the configuration and setting `_session = None`;
  - `async_send_message(message, title=None)` which lazily creates an
    aiohttp `ClientSession`, builds the Events API v2 request body, POSTs it
    to `EVENTS_API_URL` under a 10-second `async_timeout`, logs a non-202
    response (status and body text) as an error, and swallows every
    `Exception` with `_LOGGER.exception`;
  - `async_will_remove_from_hass()` which closes the session if one exists.

The network and the aiohttp library are modelled explicitly: a `PostOutcome`
says what the endpoint does on a given call (a status/body response, or an
exception during the request), a `Session` carries an identity and a closed
flag, `Session` close is idempotent (aiohttp releases the connector only on
the first close), and POSTing on a closed session raises a `RuntimeError`
before any request is issued (aiohttp behaviour).  Exceptions are explicit
`Except` values so that the try/except structure of the code is visible.
-/

namespace PagerDutyNotify

/-- JSON values as needed for the Events API v2 request body: strings and
objects with an ordered field list (Python dicts preserve insertion order). -/
inductive Json where
  | str : String → Json
  | obj : List (String × Json) → Json

/-- Field lookup in a JSON object (first binding wins). -/
def Json.lookup : Json → String → Option Json
  | Json.obj fields, k => (fields.find? (fun p => p.1 == k)).map Prod.snd
  | Json.str _, _ => none

/-- Two-level field lookup, for reaching into the nested `payload` object. -/
def Json.lookupPath (j : Json) (k1 k2 : String) : Option Json :=
  match j.lookup k1 with
  | some j2 => j2.lookup k2
  | none => none

/-- `EVENTS_API_URL` from line 23 of the source. -/
def EVENTS_API_URL : String := "https://events.pagerduty.com/v2/enqueue"

/-- `HTTP_TIMEOUT` from line 24 of the source (seconds). -/
def HTTP_TIMEOUT : Nat := 10

/-- The configuration stored by `PagerDutyNotifyEntity.__init__`:
`_attr_name`, `_routing_key`, `_source`, `_severity` (the `_session = None`
part lives in `EntityState` below, since it mutates). -/
structure PagerDutyNotifyEntity where
  attr_name : String
  routing_key : String
  source : String
  severity : String

/-- Python's `title or message` for `title : str | None`: both `None` and
the empty string are falsy, so either falls back to `message`. -/
def pyStrOr (title : Option String) (message : String) : String :=
  match title with
  | none => message
  | some t => if t = "" then message else t

/-- The request body dict built in `async_send_message` (source lines 66-75):
`routing_key`, `event_action: "trigger"`, and a nested `payload` with
`summary` (`title or message`), `source` and `severity` from the config. -/
def buildPayload (e : PagerDutyNotifyEntity) (message : String)
    (title : Option String) : Json :=
  Json.obj [
    ("routing_key", Json.str e.routing_key),
    ("event_action", Json.str "trigger"),
    ("payload", Json.obj [
      ("summary", Json.str (pyStrOr title message)),
      ("source", Json.str e.source),
      ("severity", Json.str e.severity)])]

/-- An aiohttp `ClientSession`: an identity (so that "same instance" is
expressible) and a closed flag. -/
structure Session where
  id : Nat
  closed : Bool
  deriving DecidableEq, Repr

/-- What the `_LOGGER` sink records: `_LOGGER.error("PagerDuty response %s: %s",
status, body)` on a non-202 response, and `_LOGGER.exception("Failed to send
PagerDuty event")` from the except-clause. -/
inductive LogRecord where
  | error (status : Nat) (body : String)
  | exception
  deriving Repr

/-- One HTTP POST as issued by `self._session.post(EVENTS_API_URL, json=payload)`
inside `async_timeout.timeout(HTTP_TIMEOUT)`. -/
structure Request where
  url : String
  body : Json
  timeout : Nat
  sessionId : Nat

/-- Kinds of exception the environment can raise during the HTTP call:
a network failure, expiry of the `async_timeout` bound, or anything else. -/
inductive ExcKind where
  | network
  | timeout
  | other
  deriving DecidableEq, Repr

/-- What the endpoint/network does on one POST attempt: respond with a
status and body text, or raise an exception during the call. -/
inductive PostOutcome where
  | response (status : Nat) (body : String)
  | exc (k : ExcKind)

/-- Python exceptions (all subclasses of `Exception`) that can arise inside
the try-block: aiohttp's `RuntimeError` when posting on a closed session,
or whatever the environment raised. -/
inductive PyExc where
  | sessionClosed
  | fromOutcome (k : ExcKind)

/-- The mutable state of one entity: the `_session` attribute, a counter
handing out fresh session identities, the log sink, the requests issued on
the wire, and the session ids whose connector was actually released. -/
structure EntityState where
  session : Option Session
  nextId : Nat
  log : List LogRecord
  requests : List Request
  released : List Nat

/-- State right after `__init__`: `self._session = None` (line 58). -/
def initState : EntityState :=
  { session := none, nextId := 0, log := [], requests := [], released := [] }

/-- Lines 63-64: `if self._session is None: self._session = aiohttp.ClientSession()`.
Returns the session to use together with the possibly-updated state. -/
def ensureSession (s : EntityState) : Session × EntityState :=
  match s.session with
  | none =>
    let sess : Session := { id := s.nextId, closed := false }
    (sess, { s with session := some sess, nextId := s.nextId + 1 })
  | some sess => (sess, s)

/-- The try-block of `async_send_message` (lines 87-95): POSTing on a closed
session raises before any request goes out; otherwise exactly one POST of
`body` to `EVENTS_API_URL` is issued under the `HTTP_TIMEOUT` bound, a
non-202 response has its body text read and logged as an error, and an
exception from the environment propagates out of the block.  Returns the
requests issued and either the log records of the normal path or the
escaping exception. -/
def tryBlock (sess : Session) (body : Json) (outcome : PostOutcome) :
    List Request × Except PyExc (List LogRecord) :=
  if sess.closed then
    ([], Except.error PyExc.sessionClosed)
  else
    ([{ url := EVENTS_API_URL, body := body, timeout := HTTP_TIMEOUT,
        sessionId := sess.id }],
      match outcome with
      | PostOutcome.response status b =>
          Except.ok (if status ≠ 202 then [LogRecord.error status b] else [])
      | PostOutcome.exc k => Except.error (PyExc.fromOutcome k))

/-- `async_send_message(message, title)` (lines 62-97): lazy session creation,
body construction, then the try-block with `except Exception` logging
`_LOGGER.exception` and swallowing the error.  The result is `Except.ok`
exactly when no exception escapes to the caller. -/
def async_send_message (e : PagerDutyNotifyEntity) (s : EntityState)
    (message : String) (title : Option String) (outcome : PostOutcome) :
    Except PyExc EntityState :=
  let sess := (ensureSession s).1
  let s1 := (ensureSession s).2
  let body := buildPayload e message title
  let tb := tryBlock sess body outcome
  let s2 := { s1 with requests := s1.requests ++ tb.1 }
  match tb.2 with
  | Except.ok logs => Except.ok { s2 with log := s2.log ++ logs }
  | Except.error _ => Except.ok { s2 with log := s2.log ++ [LogRecord.exception] }

/-- aiohttp `ClientSession.close()`: releases the connector on the first
call and is a no-op on an already-closed session; `self._session` keeps
pointing at the (now closed) session object. -/
def closeSession (s : EntityState) (sess : Session) : EntityState :=
  if sess.closed then s
  else
    { s with session := some { sess with closed := true },
             released := s.released ++ [sess.id] }

/-- `async_will_remove_from_hass` (lines 99-101):
`if self._session: await self._session.close()`. -/
def async_will_remove_from_hass (s : EntityState) : EntityState :=
  match s.session with
  | none => s
  | some sess => closeSession s sess

/-- One externally-triggered operation on the entity. -/
inductive Op where
  | deliver (message : String) (title : Option String) (outcome : PostOutcome)
  | teardown

/-- Run one operation.  `async_send_message` never returns `Except.error`
(proved below), so the error arm is unreachable. -/
def runOp (e : PagerDutyNotifyEntity) (s : EntityState) : Op → EntityState
  | Op.deliver m t o =>
    match async_send_message e s m t o with
    | Except.ok s' => s'
    | Except.error _ => s
  | Op.teardown => async_will_remove_from_hass s

/-- Run a sequence of operations from the freshly-constructed state. -/
def runTrace (e : PagerDutyNotifyEntity) (ops : List Op) : EntityState :=
  ops.foldl (runOp e) initState

/-- Demonstration entity from the spec's concrete scenario:
`Construct("pagerduty", "R-KEY", "home-assistant", "info")`. -/
def eDemo : PagerDutyNotifyEntity :=
  { attr_name := "pagerduty", routing_key := "R-KEY",
    source := "home-assistant", severity := "info" }

/-- What one POST attempt contributes to the log sink: a non-202 response is
logged as an error with status and body text, an exception is logged by the
except-clause. -/
def responseLogs : PostOutcome → List LogRecord
  | PostOutcome.response status b => if status ≠ 202 then [LogRecord.error status b] else []
  | PostOutcome.exc _ => [LogRecord.exception]

theorem ensureSession_none {s : EntityState} (hs : s.session = none) :
    ensureSession s = ({ id := s.nextId, closed := false },
      { s with session := some { id := s.nextId, closed := false },
               nextId := s.nextId + 1 }) := by
  simp [ensureSession, hs]

theorem ensureSession_some {s : EntityState} {sess : Session} (hs : s.session = some sess) :
    ensureSession s = (sess, s) := by
  simp [ensureSession, hs]

theorem ensure_log (s : EntityState) : (ensureSession s).2.log = s.log := by
  cases h : s.session <;> simp [ensureSession, h]

theorem ensure_requests (s : EntityState) : (ensureSession s).2.requests = s.requests := by
  cases h : s.session <;> simp [ensureSession, h]

/-- Behaviour of one `async_send_message` call on a usable (open) session:
exactly one POST of the built body to the fixed URL under the fixed timeout,
and the outcome-dependent log records. -/
theorem send_open (e : PagerDutyNotifyEntity) (s : EntityState) (m : String)
    (t : Option String) (o : PostOutcome) (hc : (ensureSession s).1.closed = false) :
    async_send_message e s m t o = Except.ok
      { (ensureSession s).2 with
        requests := (ensureSession s).2.requests ++
          [{ url := EVENTS_API_URL, body := buildPayload e m t,
             timeout := HTTP_TIMEOUT, sessionId := (ensureSession s).1.id }],
        log := (ensureSession s).2.log ++ responseLogs o } := by
  cases o <;> simp [async_send_message, tryBlock, hc, responseLogs]

/-- Behaviour of one `async_send_message` call on a closed session: the POST
raises before any request is issued, the except-clause logs it, and nothing
else changes. -/
theorem send_closed (e : PagerDutyNotifyEntity) (s : EntityState) (m : String)
    (t : Option String) (o : PostOutcome) (sess : Session)
    (hs : s.session = some sess) (hc : sess.closed = true) :
    async_send_message e s m t o =
      Except.ok { s with log := s.log ++ [LogRecord.exception] } := by
  simp [async_send_message, ensureSession, hs, tryBlock, hc]

/-- Invariant carried by every reachable state: the session id counter never
passes 1, a missing session means nothing has ever been sent, any session
present is the one with id 0, and every request on the wire was issued by
session 0. -/
def SessionInv (s : EntityState) : Prop :=
  s.nextId ≤ 1 ∧
  (s.session = none → s.nextId = 0 ∧ s.requests = []) ∧
  (∀ sess, s.session = some sess → sess.id = 0 ∧ s.nextId = 1) ∧
  (∀ r ∈ s.requests, r.sessionId = 0)

theorem sessionInv_init : SessionInv initState := by
  refine ⟨by simp [initState], by simp [initState], ?_, by simp [initState]⟩
  intro sess h
  simp [initState] at h

theorem sessionInv_runOp (e : PagerDutyNotifyEntity) (s : EntityState) (op : Op)
    (h : SessionInv s) : SessionInv (runOp e s op) := by
  obtain ⟨h1, h2, h3, h4⟩ := h
  cases op with
  | teardown =>
    rcases hs : s.session with _ | sess
    · simpa [runOp, async_will_remove_from_hass, hs] using ⟨h1, h2, h3, h4⟩
    · by_cases hc : sess.closed
      · simp only [runOp, async_will_remove_from_hass, hs, closeSession, hc, if_true]
        exact ⟨h1, h2, h3, h4⟩
      · simp only [runOp, async_will_remove_from_hass, hs, closeSession, hc, if_false,
          Bool.false_eq_true]
        refine ⟨h1, by simp, ?_, h4⟩
        intro sess' hsess'
        simp at hsess'
        obtain ⟨hid, _⟩ := h3 sess hs
        exact ⟨by rw [← hsess', hid], (h3 sess hs).2⟩
  | deliver m t o =>
    rcases hs : s.session with _ | sess
    · obtain ⟨hn0, hr0⟩ := h2 hs
      rw [runOp, send_open e s m t o (by rw [ensureSession_none hs])]
      rw [ensureSession_none hs]
      refine ⟨by simp [hn0], by simp, ?_, ?_⟩
      · intro sess' hsess'
        simp at hsess'
        simp [← hsess', hn0]
      · intro r hr
        simp [hr0] at hr
        simp [hr, hn0]
    · by_cases hc : sess.closed
      · rw [runOp, send_closed e s m t o sess hs hc]
        exact ⟨h1, by simp [hs], by simpa [hs] using h3, h4⟩
      · rw [runOp, send_open e s m t o (by rw [ensureSession_some hs]; simpa using hc)]
        rw [ensureSession_some hs]
        refine ⟨h1, by simp [hs], by simpa [hs] using h3, ?_⟩
        intro r hr
        simp at hr
        rcases hr with hr | hr
        · exact h4 r hr
        · simp [hr, (h3 sess hs).1]

theorem sessionInv_runTrace (e : PagerDutyNotifyEntity) (ops : List Op) :
    SessionInv (runTrace e ops) := by
  have step : ∀ s, SessionInv s → SessionInv (ops.foldl (runOp e) s) := by
    induction ops with
    | nil => intro s hv; exact hv
    | cons op rest ih =>
      intro s hv
      exact ih _ (sessionInv_runOp e s op hv)
  exact step initState sessionInv_init

/-- Concrete entity state with an open (never torn down) session, as after a
first Deliver with nothing logged or sent yet on the wire model. -/
def stateOpen : EntityState :=
  { session := some { id := 0, closed := false }, nextId := 1, log := [],
    requests := [], released := [] }

/-- Concrete entity state after teardown: the session object is still stored
in `_session` but closed, and its connector was released. -/
def stateClosed : EntityState :=
  { session := some { id := 0, closed := true }, nextId := 1, log := [],
    requests := [], released := [0] }

/-- C1: every Deliver call on a usable session issues exactly one POST to the
fixed endpoint `https://events.pagerduty.com/v2/enqueue` whose body is exactly
the JSON object with fields routing_key (the routing credential),
event_action "trigger", and a nested payload of summary, source, severity
and nothing else; and in the spec's concrete scenario after
`Construct("pagerduty", "R-KEY", "home-assistant", "info")`,
`Deliver("CPU at 95%", "High load")` sends exactly the expected body. -/
theorem c1_exact_body_single_post (e : PagerDutyNotifyEntity) (s : EntityState)
    (m : String) (t : Option String) (st : Nat) (b : String)
    (hc : (ensureSession s).1.closed = false) :
    (∃ s', async_send_message e s m t (PostOutcome.response st b) = Except.ok s' ∧
      s'.requests = s.requests ++
        [{ url := EVENTS_API_URL,
           body := Json.obj [
             ("routing_key", Json.str e.routing_key),
             ("event_action", Json.str "trigger"),
             ("payload", Json.obj [
               ("summary", Json.str (pyStrOr t m)),
               ("source", Json.str e.source),
               ("severity", Json.str e.severity)])],
           timeout := HTTP_TIMEOUT, sessionId := (ensureSession s).1.id }]) ∧
    (∃ s', async_send_message eDemo initState "CPU at 95%" (some "High load")
        (PostOutcome.response 202 "") = Except.ok s' ∧
      s'.requests =
        [{ url := "https://events.pagerduty.com/v2/enqueue",
           body := Json.obj [
             ("routing_key", Json.str "R-KEY"),
             ("event_action", Json.str "trigger"),
             ("payload", Json.obj [
               ("summary", Json.str "High load"),
               ("source", Json.str "home-assistant"),
               ("severity", Json.str "info")])],
           timeout := HTTP_TIMEOUT, sessionId := 0 }]) := by
  constructor
  · exact ⟨_, send_open e s m t _ hc, by simp [ensure_requests, buildPayload]⟩
  · exact ⟨_, rfl, rfl⟩

/-- Witness for C1 at the fresh state, discharging the open-session hypothesis. -/
theorem c1_exact_body_single_post_witness :
    ∃ s', async_send_message eDemo initState "CPU at 95%" none
        (PostOutcome.response 202 "") = Except.ok s' ∧
      s'.requests = initState.requests ++
        [{ url := EVENTS_API_URL,
           body := Json.obj [
             ("routing_key", Json.str eDemo.routing_key),
             ("event_action", Json.str "trigger"),
             ("payload", Json.obj [
               ("summary", Json.str (pyStrOr none "CPU at 95%")),
               ("source", Json.str eDemo.source),
               ("severity", Json.str eDemo.severity)])],
           timeout := HTTP_TIMEOUT, sessionId := (ensureSession initState).1.id }] :=
  (c1_exact_body_single_post eDemo initState "CPU at 95%" none 202 "" rfl).1

/-- C2: for a non-empty message, an absent title makes the payload summary
equal the message, and a non-empty title takes precedence as the summary. -/
theorem c2_summary_title_precedence (e : PagerDutyNotifyEntity) (m : String)
    ( _hm : m ≠ "") :
    (buildPayload e m none).lookupPath "payload" "summary" = some (Json.str m) ∧
    (∀ t, t ≠ "" → (buildPayload e m (some t)).lookupPath "payload" "summary" =
      some (Json.str t)) := by
  refine ⟨rfl, ?_⟩
  intro t ht
  simp [buildPayload, Json.lookupPath, Json.lookup, List.find?, pyStrOr, ht]

/-- Witness for C2 at concrete message and title strings. -/
theorem c2_summary_title_precedence_witness :
    (buildPayload eDemo "CPU at 95%" none).lookupPath "payload" "summary" =
        some (Json.str "CPU at 95%") ∧
    (buildPayload eDemo "CPU at 95%" (some "High load")).lookupPath "payload" "summary" =
        some (Json.str "High load") :=
  ⟨(c2_summary_title_precedence eDemo "CPU at 95%" (by decide)).1,
   (c2_summary_title_precedence eDemo "CPU at 95%" (by decide)).2 "High load" (by decide)⟩

/-- C3: on any response with a status other than 202 the call reads the body
text, logs an error record carrying the status and body, and returns
normally (an `Except.ok`, so nothing is raised to the caller). -/
theorem c3_non202_logged_not_raised (e : PagerDutyNotifyEntity) (s : EntityState)
    (m : String) (t : Option String) (st : Nat) (b : String)
    (hc : (ensureSession s).1.closed = false) (hst : st ≠ 202) :
    async_send_message e s m t (PostOutcome.response st b) = Except.ok
      { (ensureSession s).2 with
        requests := (ensureSession s).2.requests ++
          [{ url := EVENTS_API_URL, body := buildPayload e m t,
             timeout := HTTP_TIMEOUT, sessionId := (ensureSession s).1.id }],
        log := (ensureSession s).2.log ++ [LogRecord.error st b] } := by
  rw [send_open e s m t _ hc]
  simp [responseLogs, hst]

/-- Witness for C3: a 500 response with body "boom" yields a logged record
with status 500 and body "boom" and no exception to the caller. -/
theorem c3_non202_logged_not_raised_witness :
    async_send_message eDemo initState "CPU at 95%" none (PostOutcome.response 500 "boom") =
      Except.ok { (ensureSession initState).2 with
        requests := (ensureSession initState).2.requests ++
          [{ url := EVENTS_API_URL, body := buildPayload eDemo "CPU at 95%" none,
             timeout := HTTP_TIMEOUT, sessionId := (ensureSession initState).1.id }],
        log := (ensureSession initState).2.log ++ [LogRecord.error 500 "boom"] } :=
  c3_non202_logged_not_raised eDemo initState "CPU at 95%" none 500 "boom" rfl (by decide)

/-- C4: whatever the outcome of the HTTP call, `async_send_message` never
returns an error to the caller, and when the call raised an exception (of any
kind) the exception record is appended to the log sink. -/
theorem c4_exceptions_swallowed (e : PagerDutyNotifyEntity) (s : EntityState)
    (m : String) (t : Option String) (o : PostOutcome) :
    (∀ err, async_send_message e s m t o ≠ Except.error err) ∧
    (∀ k s', o = PostOutcome.exc k → async_send_message e s m t o = Except.ok s' →
      s'.log = s.log ++ [LogRecord.exception]) := by
  constructor
  · intro err
    by_cases hc : (ensureSession s).1.closed
    · rcases hs : s.session with _ | sess
      · rw [ensureSession_none hs] at hc; simp at hc
      · rw [send_closed e s m t o sess hs (by rwa [ensureSession_some hs] at hc)]
        simp
    · rw [send_open e s m t o (by simpa using hc)]
      simp
  · intro k s' hk h
    subst hk
    by_cases hc : (ensureSession s).1.closed
    · rcases hs : s.session with _ | sess
      · rw [ensureSession_none hs] at hc; simp at hc
      · rw [send_closed e s m t _ sess hs (by rwa [ensureSession_some hs] at hc)] at h
        injection h with h2
        subst h2
        simp
    · rw [send_open e s m t _ (by simpa using hc)] at h
      injection h with h2
      subst h2
      simp [ensure_log, responseLogs]

/-- Witness for C4 at a concrete timeout exception on the fresh state. -/
theorem c4_exceptions_swallowed_witness :
    (async_send_message eDemo initState "m" none (PostOutcome.exc ExcKind.timeout) ≠
      Except.error (PyExc.fromOutcome ExcKind.timeout)) ∧
    ({ initState with
         session := some { id := 0, closed := false },
         nextId := 1,
         requests := [{ url := EVENTS_API_URL, body := buildPayload eDemo "m" none,
                        timeout := HTTP_TIMEOUT, sessionId := 0 }],
         log := [LogRecord.exception] } : EntityState).log =
      initState.log ++ [LogRecord.exception] :=
  ⟨(c4_exceptions_swallowed eDemo initState "m" none (PostOutcome.exc ExcKind.timeout)).1 _,
   (c4_exceptions_swallowed eDemo initState "m" none (PostOutcome.exc ExcKind.timeout)).2
     ExcKind.timeout _ rfl (by rfl)⟩

/-- C5: the timeout bound is the fixed constant 10, it covers the single POST
attempt (the request carries it), and on expiry the call returns normally
with the failure recorded in the log sink and exactly one (not retried)
request on the wire. -/
theorem c5_timeout_bound_no_retry (e : PagerDutyNotifyEntity) (s : EntityState)
    (m : String) (t : Option String) (hc : (ensureSession s).1.closed = false) :
    HTTP_TIMEOUT = 10 ∧
    async_send_message e s m t (PostOutcome.exc ExcKind.timeout) = Except.ok
      { (ensureSession s).2 with
        requests := (ensureSession s).2.requests ++
          [{ url := EVENTS_API_URL, body := buildPayload e m t,
             timeout := HTTP_TIMEOUT, sessionId := (ensureSession s).1.id }],
        log := (ensureSession s).2.log ++ [LogRecord.exception] } :=
  ⟨rfl, by rw [send_open e s m t _ hc]; rfl⟩

/-- Witness for C5 at the fresh state. -/
theorem c5_timeout_bound_no_retry_witness :
    HTTP_TIMEOUT = 10 ∧
    async_send_message eDemo initState "CPU at 95%" none (PostOutcome.exc ExcKind.timeout) =
      Except.ok { (ensureSession initState).2 with
        requests := (ensureSession initState).2.requests ++
          [{ url := EVENTS_API_URL, body := buildPayload eDemo "CPU at 95%" none,
             timeout := HTTP_TIMEOUT, sessionId := (ensureSession initState).1.id }],
        log := (ensureSession initState).2.log ++ [LogRecord.exception] } :=
  c5_timeout_bound_no_retry eDemo initState "CPU at 95%" none rfl

/-- C6: for any message, title and outcome, the body of the single request a
Deliver call issues carries source and severity equal to the entity's
configured defaults; there is no per-call override. -/
theorem c6_source_severity_defaults (e : PagerDutyNotifyEntity) (s : EntityState)
    (m : String) (t : Option String) (o : PostOutcome)
    (hc : (ensureSession s).1.closed = false) :
    ∃ s' req, async_send_message e s m t o = Except.ok s' ∧
      s'.requests = s.requests ++ [req] ∧
      req.body.lookupPath "payload" "source" = some (Json.str e.source) ∧
      req.body.lookupPath "payload" "severity" = some (Json.str e.severity) := by
  refine ⟨_, { url := EVENTS_API_URL, body := buildPayload e m t,
               timeout := HTTP_TIMEOUT, sessionId := (ensureSession s).1.id },
          send_open e s m t o hc, by simp [ensure_requests], rfl, rfl⟩

/-- Witness for C6 at the fresh state with a 202 response. -/
theorem c6_source_severity_defaults_witness :
    ∃ s' req, async_send_message eDemo initState "CPU at 95%" none
        (PostOutcome.response 202 "") = Except.ok s' ∧
      s'.requests = initState.requests ++ [req] ∧
      req.body.lookupPath "payload" "source" = some (Json.str eDemo.source) ∧
      req.body.lookupPath "payload" "severity" = some (Json.str eDemo.severity) :=
  c6_source_severity_defaults eDemo initState "CPU at 95%" none
    (PostOutcome.response 202 "") rfl

/-- C7: the network client is absent after construction, present after any
Deliver call, created at most once over any trace of operations (the id
counter never passes 1), shared by all requests ever issued (all carry the
id-0 session), and, once present, persists (same identity) across every
further operation. -/
theorem c7_lazy_single_client :
    initState.session = none ∧
    (∀ e s m t o, ((runOp e s (Op.deliver m t o)).session).isSome = true) ∧
    (∀ e ops, (runTrace e ops).nextId ≤ 1) ∧
    (∀ e ops r, r ∈ (runTrace e ops).requests → r.sessionId = 0) ∧
    (∀ e s op sess, s.session = some sess →
      ∃ sess', (runOp e s op).session = some sess' ∧ sess'.id = sess.id) := by
  refine ⟨rfl, ?_, ?_, ?_, ?_⟩
  · intro e s m t o
    rcases hs : s.session with _ | sess
    · rw [runOp, send_open e s m t o (by rw [ensureSession_none hs])]
      rw [ensureSession_none hs]
      simp
    · by_cases hc : sess.closed
      · rw [runOp, send_closed e s m t o sess hs hc]
        simp [hs]
      · rw [runOp, send_open e s m t o (by rw [ensureSession_some hs]; simpa using hc)]
        rw [ensureSession_some hs]
        simp [hs]
  · intro e ops
    exact (sessionInv_runTrace e ops).1
  · intro e ops r hr
    exact (sessionInv_runTrace e ops).2.2.2 r hr
  · intro e s op sess hs
    cases op with
    | teardown =>
      by_cases hc : sess.closed
      · exact ⟨sess, by simp [runOp, async_will_remove_from_hass, hs, closeSession, hc], rfl⟩
      · exact ⟨{ sess with closed := true },
          by simp [runOp, async_will_remove_from_hass, hs, closeSession, hc], rfl⟩
    | deliver m t o =>
      by_cases hc : sess.closed
      · rw [runOp, send_closed e s m t o sess hs hc]
        exact ⟨sess, hs, rfl⟩
      · rw [runOp, send_open e s m t o (by rw [ensureSession_some hs]; simpa using hc)]
        rw [ensureSession_some hs]
        exact ⟨sess, hs, rfl⟩

/-- Witness for C7 at concrete traces and states, discharging the membership
and stored-session hypotheses. -/
theorem c7_lazy_single_client_witness :
    ((runOp eDemo initState
        (Op.deliver "m" none (PostOutcome.response 202 ""))).session).isSome = true ∧
    (runTrace eDemo [Op.deliver "m" none (PostOutcome.response 202 ""),
        Op.teardown]).nextId ≤ 1 ∧
    ({ url := EVENTS_API_URL, body := buildPayload eDemo "m" none,
       timeout := HTTP_TIMEOUT, sessionId := 0 } : Request).sessionId = 0 ∧
    (∃ sess', (runOp eDemo stateClosed Op.teardown).session = some sess' ∧
      sess'.id = 0) :=
  ⟨c7_lazy_single_client.2.1 eDemo initState "m" none (PostOutcome.response 202 ""),
   c7_lazy_single_client.2.2.1 eDemo
     [Op.deliver "m" none (PostOutcome.response 202 ""), Op.teardown],
   c7_lazy_single_client.2.2.2.1 eDemo
     [Op.deliver "m" none (PostOutcome.response 202 "")]
     { url := EVENTS_API_URL, body := buildPayload eDemo "m" none,
       timeout := HTTP_TIMEOUT, sessionId := 0 }
     (List.Mem.head _),
   c7_lazy_single_client.2.2.2.2 eDemo stateClosed Op.teardown
     { id := 0, closed := true } rfl⟩

/-- C8: teardown is a no-op on the freshly-constructed entity (no client was
ever created), is idempotent, releases the connector exactly when an open
session exists (appending exactly its id to the released list), and does
nothing (in particular no second release) on an already-closed session. -/
theorem c8_teardown_safe :
    async_will_remove_from_hass initState = initState ∧
    (∀ s, async_will_remove_from_hass (async_will_remove_from_hass s) =
      async_will_remove_from_hass s) ∧
    (∀ s, s.session = none → async_will_remove_from_hass s = s) ∧
    (∀ s sess, s.session = some sess → sess.closed = false →
      (async_will_remove_from_hass s).released = s.released ++ [sess.id] ∧
      (async_will_remove_from_hass s).session = some { sess with closed := true }) ∧
    (∀ s sess, s.session = some sess → sess.closed = true →
      async_will_remove_from_hass s = s) := by
  refine ⟨rfl, ?_, ?_, ?_, ?_⟩
  · intro s
    rcases hs : s.session with _ | sess
    · simp [async_will_remove_from_hass, hs]
    · by_cases hc : sess.closed
      · simp [async_will_remove_from_hass, hs, closeSession, hc]
      · simp [async_will_remove_from_hass, hs, closeSession, hc]
  · intro s hs
    simp [async_will_remove_from_hass, hs]
  · intro s sess hs hc
    constructor
    · simp [async_will_remove_from_hass, hs, closeSession, hc]
    · simp [async_will_remove_from_hass, hs, closeSession, hc]
  · intro s sess hs hc
    simp [async_will_remove_from_hass, hs, closeSession, hc]

/-- Witness for C8 at concrete states in every reachable teardown situation. -/
theorem c8_teardown_safe_witness :
    async_will_remove_from_hass (async_will_remove_from_hass stateOpen) =
      async_will_remove_from_hass stateOpen ∧
    async_will_remove_from_hass initState = initState ∧
    (async_will_remove_from_hass stateOpen).released = stateOpen.released ++ [0] ∧
    async_will_remove_from_hass stateClosed = stateClosed :=
  ⟨c8_teardown_safe.2.1 stateOpen,
   c8_teardown_safe.2.2.1 initState rfl,
   (c8_teardown_safe.2.2.2.1 stateOpen { id := 0, closed := false } rfl rfl).1,
   c8_teardown_safe.2.2.2.2 stateClosed { id := 0, closed := true } rfl rfl⟩

/-- C9: a present but empty title is falsy in `title or message`, so the
payload summary equals the message, exactly as when the title is absent. -/
theorem c9_empty_title_uses_message (e : PagerDutyNotifyEntity) (m : String) :
    (buildPayload e m (some "")).lookupPath "payload" "summary" = some (Json.str m) := rfl

/-- C10: a Deliver call after teardown finds `_session` still set, so the
lazy-creation branch is skipped and the closed client is reused; the POST on
the closed session raises, the exception is caught and logged, and the state
is otherwise unchanged (no new client, no request on the wire, nothing
raised to the caller). -/
theorem c10_send_after_teardown (e : PagerDutyNotifyEntity) (s : EntityState)
    (m : String) (t : Option String) (o : PostOutcome) (sess : Session)
    (hs : s.session = some sess) (hc : sess.closed = true) :
    async_send_message e s m t o =
      Except.ok { s with log := s.log ++ [LogRecord.exception] } :=
  send_closed e s m t o sess hs hc

/-- Witness for C10 at the concrete torn-down state. -/
theorem c10_send_after_teardown_witness :
    async_send_message eDemo stateClosed "CPU at 95%" none (PostOutcome.response 202 "") =
      Except.ok { stateClosed with log := stateClosed.log ++ [LogRecord.exception] } :=
  c10_send_after_teardown eDemo stateClosed "CPU at 95%" none (PostOutcome.response 202 "")
    { id := 0, closed := true } rfl rfl

end PagerDutyNotify
